import Mathlib

/-!
# webconsole: configuration event handler (proto/server/configEvtHandler.go)

A shallow embedding of the diffing functions, the bit-rate formatter, the
subscriber provisioning path and the event loop of `configEvtHandler.go`,
followed by theorems about them.

Conventions of the embedding:
* a Go pointer that may be nil is an `Option`;
* a Go slice is a `List`, `append(xs, x)` is `xs ++ [x]`;
* a `for _, x := range xs` loop is a `List.foldl` over `xs` whose accumulator
  holds the variables the loop body assigns;
* `uint64` values are `Nat`, `int64`/`int32` values are `Int`;
* a channel is the `List` of the values sent on it, oldest first, and a send
  never blocks; the two goroutines are composed sequentially.
-/

namespace Webconsole

/-! ## Data model -/

/-- The credential type `models.AuthenticationSubscription` of the external
openapi package; its content is never inspected by the handler, so it is kept
as a payload. -/
structure AuthenticationSubscription where
  payload : String
  deriving DecidableEq, Repr

/-- The type `configmodels.DeviceGroupsIpDomainExpandedUeDnnQos`, with the
fields the handler reads (`int64` bit rates). -/
structure DeviceGroupsIpDomainExpandedUeDnnQos where
  DnnMbrUplink : Int
  DnnMbrDownlink : Int
  deriving DecidableEq, Repr

/-- The type `configmodels.DeviceGroupsIpDomainExpanded`, with the fields the
handler reads; `UeDnnQos` is a pointer. -/
structure DeviceGroupsIpDomainExpanded where
  Dnn : String
  UeDnnQos : Option DeviceGroupsIpDomainExpandedUeDnnQos
  deriving DecidableEq, Repr

/-- The type `configmodels.DeviceGroups`, with the fields the handler reads.
`DeviceGroupName` is the document field `group-name` the snapshot filters
match on. -/
structure DeviceGroups where
  DeviceGroupName : String
  Imsis : List String
  IpDomainExpanded : DeviceGroupsIpDomainExpanded
  deriving DecidableEq, Repr

/-- The in-memory authentication cache `imsiData`, a Go
`map[string]*models.AuthenticationSubscription`: a list of bindings, the first
binding of a key being the current one. A key may be bound to a nil pointer. -/
abbrev ImsiData := List (String × Option AuthenticationSubscription)

/-- The map read `imsiData[imsi]`: the bound pointer, nil when the key is
absent. -/
def imsiDataGet (imsiData : ImsiData) (imsi : String) : Option AuthenticationSubscription :=
  match imsiData.lookup imsi with
  | some v => v
  | none => none

/-- The map write `imsiData[imsi] = v`. -/
def imsiDataSet (imsiData : ImsiData) (imsi : String) (v : Option AuthenticationSubscription) :
    ImsiData :=
  (imsi, v) :: imsiData

/-! ## Diff engine -/

/-- The source function `getAddedImsisList` (lines 364-388). The global
`imsiData` is passed explicitly. -/
def getAddedImsisList (imsiData : ImsiData) (group prevGroup : Option DeviceGroups) :
    List String :=
  match group with
  | none => []
  | some g =>
    g.Imsis.foldl
      (fun aimsis imsi =>
        match prevGroup with
        | none =>
          if (imsiDataGet imsiData imsi).isSome then aimsis ++ [imsi] else aimsis
        | some p =>
          let found := p.Imsis.foldl
            (fun found pimsi => if pimsi = imsi then true else found) false
          if !found then aimsis ++ [imsi] else aimsis)
      []

/-- The source function `getDeletedImsisList` (lines 390-413). -/
def getDeletedImsisList (group prevGroup : Option DeviceGroups) : List String :=
  match prevGroup with
  | none => []
  | some p =>
    match group with
    | none => p.Imsis
    | some g =>
      p.Imsis.foldl
        (fun dimsis pimsi =>
          let found := g.Imsis.foldl
            (fun found imsi => if pimsi = imsi then true else found) false
          if !found then dimsis ++ [pimsi] else dimsis)
        []

/-- The type `configmodels.Slice`, with the fields the handler reads: the
document field `SliceName` the snapshot filters match on, the slice identifier
`SliceId.Sst`/`SliceId.Sd`, the referenced device-group names and the network
code `SiteInfo.Plmn.Mcc`/`SiteInfo.Plmn.Mnc`. -/
structure Slice where
  SliceName : String
  Sst : String
  Sd : String
  SiteDeviceGroup : List String
  Mcc : String
  Mnc : String
  deriving DecidableEq, Repr

/-- The inner loop of `getDeleteGroupsList` (lines 567-573): scan `names` for
`pdgName`, leaving the loop at the first hit. -/
def foundInGroups (pdgName : String) : List String → Bool
  | [] => false
  | dgName :: rest => if dgName = pdgName then true else foundInGroups pdgName rest

/-- The source function `getDeleteGroupsList` (lines 560-583). -/
def getDeleteGroupsList (slice prevSlice : Option Slice) : List String :=
  match prevSlice with
  | none => []
  | some p =>
    match slice with
    | some s =>
      p.SiteDeviceGroup.foldl
        (fun names pdgName =>
          if !(foundInGroups pdgName s.SiteDeviceGroup) then names ++ [pdgName] else names)
        []
    | none => [] ++ p.SiteDeviceGroup

/-- The source function `getAddedGroupsList` (lines 556-558): the deleted-groups
function with its arguments swapped. -/
def getAddedGroupsList (slice prevSlice : Option Slice) : List String :=
  getDeleteGroupsList prevSlice slice

/-! ## Bit-rate formatting -/

/-- Go's `strconv.FormatUint(i, base)` for bases up to 16. -/
def FormatUint (i base : Nat) : String :=
  String.mk (Nat.toDigits base i)

/-- The source function `convertToString` (lines 740-757); `val` is a
`uint64`, and no operation of the body can overflow. -/
def convertToString (val : Nat) : String :=
  let kbVal := val / 1000
  let mbVal := val / 1000000
  let gbVal := val / 1000000000
  if gbVal ≠ 0 then FormatUint gbVal 10 ++ " Gbps"
  else if mbVal ≠ 0 then FormatUint mbVal 10 ++ " Mbps"
  else if kbVal ≠ 0 then FormatUint kbVal 10 ++ " Kbps"
  else FormatUint val 10 ++ " bps"

/-! ## Events -/

/-- The event types of `configmodels` the handler distinguishes. -/
inductive MsgType where
  | Device_group
  | Network_slice
  | Sub_data
  | Inventory
  deriving DecidableEq, Repr

/-- The event methods of `configmodels`. -/
inductive MsgMethod where
  | Post_op
  | Put_op
  | Delete_op
  deriving DecidableEq, Repr

/-- The radio-node payload `configmodels.Gnb`; only its presence matters to the
handler. -/
structure Gnb where
  Name : String
  deriving DecidableEq, Repr

/-- The user-plane-node payload `configmodels.Upf`; only its presence matters
to the handler. -/
structure Upf where
  Hostname : String
  deriving DecidableEq, Repr

/-- The type `configmodels.ConfigMessage`, with the fields the handler reads.
The payloads are pointers. -/
structure ConfigMessage where
  MsgType : MsgType
  MsgMethod : MsgMethod
  DevGroup : Option DeviceGroups
  Slice : Option Slice
  Gnb : Option Gnb
  Upf : Option Upf
  AuthSubData : Option AuthenticationSubscription
  DevGroupName : String
  SliceName : String
  GnbName : String
  UpfHostname : String
  Imsi : String
  deriving DecidableEq, Repr

/-- The source type `Update5GSubscriberMsg` (lines 43-47). -/
structure Update5GSubscriberMsg where
  Msg : ConfigMessage
  PrevDevGroup : Option DeviceGroups
  PrevSlice : Option Slice
  deriving DecidableEq, Repr

/-! ## Documents and the document store -/

/-- The type `models.Snssai` of the external openapi package (`Sst` is an
`int32`). -/
structure Snssai where
  Sst : Int
  Sd : String
  deriving DecidableEq, Repr

/-- A document of the collection `authSubsDataColl`. -/
structure AuthSubsDoc where
  ueId : String
  authSubData : AuthenticationSubscription
  deriving DecidableEq, Repr

/-- A document of the collection `amPolicyDataColl`, as written by
`updateAmPolicyData`. -/
structure AmPolicyDoc where
  ueId : String
  subscCats : List String
  deriving DecidableEq, Repr

/-- A document of the collection `smPolicyDataColl`, as written by
`updateSmPolicyData`: one S-NSSAI entry under its hexadecimal key, with one
data-network entry. -/
structure SmPolicyDoc where
  ueId : String
  snssaiKey : String
  snssai : Snssai
  dnn : String
  deriving DecidableEq, Repr

/-- A document of the collection `amDataColl`. `handleSubscriberPost` writes
only `ueId`; `updateAmProvisionedData` writes all the fields. -/
structure AmDataDoc where
  ueId : String
  servingPlmnId : Option String
  gpsis : List String
  nssai : Option Snssai
  subscribedUeAmbr : Option (String × String)
  deriving DecidableEq, Repr

/-- A document of the collection `smDataColl`, as written by
`updateSmProvisionedData`; the constant session-type, SSC-mode and QoS-profile
fields of the source are left out. `sessionAmbr` is (downlink, uplink). -/
structure SmDataDoc where
  ueId : String
  servingPlmnId : String
  singleNssai : Snssai
  dnn : String
  sessionAmbr : String × String
  deriving DecidableEq, Repr

/-- A document of the collection `smfSelDataColl`, as written by
`updateSmfSelectionProviosionedData`. -/
structure SmfSelDoc where
  ueId : String
  servingPlmnId : String
  snssaiKey : String
  dnn : String
  deriving DecidableEq, Repr

/-- The collections the handler reads and writes, each in store order. -/
structure Store where
  devGroupData : List DeviceGroups
  sliceData : List Slice
  authSubsData : List AuthSubsDoc
  amData : List AmDataDoc
  smData : List SmDataDoc
  smfSelData : List SmfSelDoc
  amPolicyData : List AmPolicyDoc
  smPolicyData : List SmPolicyDoc
  deriving DecidableEq, Repr

/-- Modelled from the spec: the document-store driver (package `dbadapter`) is
not among the sources. Get-one-by-filter returns the first document of the
collection matching the filter, if any. -/
def RestfulAPIGetOne {α : Type} (coll : List α) (filter : α → Bool) : Option α :=
  coll.find? filter

/-- Modelled from the spec: the document-store driver (package `dbadapter`) is
not among the sources. Get-many with no filter returns the whole collection. -/
def RestfulAPIGetMany {α : Type} (coll : List α) : List α :=
  coll

/-- Replace the first document matching the filter. -/
def replaceFirst {α : Type} (filter : α → Bool) (doc : α) : List α → List α
  | [] => []
  | d :: rest => if filter d then doc :: rest else d :: replaceFirst filter doc rest

/-- Modelled from the spec: the document-store driver (package `dbadapter`) is
not among the sources. Upsert-by-filter (insert-or-replace) replaces the first
document matching the filter, or inserts the document when none matches. -/
def RestfulAPIPost {α : Type} (coll : List α) (filter : α → Bool) (doc : α) : List α :=
  if coll.any filter then replaceFirst filter doc coll else coll ++ [doc]

/-- Modelled from the spec: the document-store driver (package `dbadapter`) is
not among the sources. Delete-one-by-filter removes the first document matching
the filter, if any. -/
def RestfulAPIDeleteOne {α : Type} (coll : List α) (filter : α → Bool) : List α :=
  coll.eraseP filter

/-! ## Snapshot repository -/

/-- The zero value of `configmodels.DeviceGroups`. -/
def zeroDeviceGroups : DeviceGroups :=
  ⟨"", [], ⟨"", none⟩⟩

/-- The source function `getDeviceGroupByName` (lines 319-331). The stored
document is decoded into the local `devGroupData`, which keeps its zero value
when no document is found, and the function returns the address of that local:
the result is never nil. The JSON round trip of a snapshot (`toBsonM` on
write, `mapToByte` and `json.Unmarshal` on read) is taken as the identity: it
is for strings and string lists, and for `int64` bit rates of magnitude up to
`2^53`; a larger bit rate comes back rounded in the source. -/
def getDeviceGroupByName (s : Store) (name : String) : Option DeviceGroups :=
  let devGroupDataInterface := RestfulAPIGetOne s.devGroupData (fun d => d.DeviceGroupName == name)
  let devGroupData :=
    match devGroupDataInterface with
    | some d => d
    | none => zeroDeviceGroups
  some devGroupData

/-- The source function `getSlices` (lines 333-348). -/
def getSlices (s : Store) : List Slice :=
  (RestfulAPIGetMany s.sliceData).foldl (fun slices sliceData => slices ++ [sliceData]) []

/-- The inner loop of `isDeviceGroupExistInSlice` (lines 545-550). -/
def sliceHasGroup (devGroupName : String) : List String → Bool
  | [] => false
  | dgName :: rest => if dgName = devGroupName then true else sliceHasGroup devGroupName rest

/-- The outer loop of `isDeviceGroupExistInSlice` (lines 544-551): the first
slice, in store order, one of whose references is the group name. -/
def firstSliceWithGroup (devGroupName : String) : List Slice → Option Slice
  | [] => none
  | slice :: rest =>
    if sliceHasGroup devGroupName slice.SiteDeviceGroup then some slice
    else firstSliceWithGroup devGroupName rest

/-- The source function `isDeviceGroupExistInSlice` (lines 543-554). -/
def isDeviceGroupExistInSlice (s : Store) (msg : Update5GSubscriberMsg) : Option Slice :=
  firstSliceWithGroup msg.Msg.DevGroupName (getSlices s)

/-! ## Conversions of the Go standard library -/

/-- The digit loop of Go's `strconv.ParseUint(s, 10, 32)`, value only, with
`n` the value read so far: the characters are read left to right; the first
character that is not a decimal digit ends the loop with 0 (syntax error), and
the first digit that takes the value to `2^64 / 10 + 1` or more before the
multiplication, or above `2^32 - 1` after the addition, ends it with
`2^32 - 1` (range error). -/
def parseUintLoop : List Char → Nat → Nat
  | [], n => n
  | ch :: rest, n =>
    if !ch.isDigit then 0
    else if (2 ^ 64 - 1) / 10 + 1 ≤ n then 2 ^ 32 - 1
    else
      let n1 := n * 10 + (ch.toNat - 48)
      if 2 ^ 32 - 1 < n1 then 2 ^ 32 - 1 else parseUintLoop rest n1

/-- Go's `strconv.ParseUint(s, 10, 32)`, value only (the handler logs the error
and uses the value): 0 on the empty string, else the result of the digit
loop. -/
def ParseUint32 (s : String) : Nat :=
  if s.data.isEmpty then 0 else parseUintLoop s.data 0

/-- The Go conversion `int32(v)` of a `uint64`. -/
def toInt32 (v : Nat) : Int :=
  if 2 ^ 31 ≤ v % 2 ^ 32 then (v % 2 ^ 32 : Nat) - (2 ^ 32 : Int) else (v % 2 ^ 32 : Nat)

/-- The Go conversion `uint64(v)` of an `int64`. -/
def toUint64 (v : Int) : Nat :=
  (v % 2 ^ 64).toNat

/-- Pad a digit string with zeros on the left up to `width` characters. -/
def padZeros (width : Nat) (digits : List Char) : List Char :=
  List.replicate (width - digits.length) '0' ++ digits

/-- Go's `fmt.Sprintf("%02x", v)` of an `int32`: lower-case hexadecimal, padded
with zeros to two characters, a minus sign counting as one of them. -/
def fmt02x (v : Int) : String :=
  if v < 0 then String.mk ('-' :: padZeros 1 (Nat.toDigits 16 v.natAbs))
  else String.mk (padZeros 2 (Nat.toDigits 16 v.natAbs))

/-- The source function `SnssaiModelsToHex` (lines 783-786). -/
def SnssaiModelsToHex (snssai : Snssai) : String :=
  let sst := fmt02x snssai.Sst
  sst ++ snssai.Sd

/-- Removal of every non-overlapping occurrence of `old`, left to right;
`skip` counts the characters of a matched occurrence still to drop. -/
def removeAllChars (old : List Char) : Nat → List Char → List Char
  | _, [] => []
  | skip + 1, _ :: rest => removeAllChars old skip rest
  | 0, ch :: rest =>
    if old.isPrefixOf (ch :: rest) then removeAllChars old (old.length - 1) rest
    else ch :: removeAllChars old 0 rest

/-- Go's `strings.ReplaceAll(s, old, "")` for a non-empty `old`. -/
def ReplaceAllEmpty (s old : String) : String :=
  String.mk (removeAllChars old.data 0 s.data)

/-! ## Derived-state writer -/

/-- The source function `updateAmPolicyData` (lines 415-426). -/
def updateAmPolicyData (s : Store) (imsi : String) : Store :=
  let amPolicy : AmPolicyDoc := ⟨"imsi-" ++ imsi, [] ++ ["free5gc"]⟩
  let filter : AmPolicyDoc → Bool := fun d => d.ueId == "imsi-" ++ imsi
  { s with amPolicyData := RestfulAPIPost s.amPolicyData filter amPolicy }

/-- The source function `updateSmPolicyData` (lines 428-448). -/
def updateSmPolicyData (s : Store) (snssai : Snssai) (dnn imsi : String) : Store :=
  let smPolicyData : SmPolicyDoc := ⟨"imsi-" ++ imsi, SnssaiModelsToHex snssai, snssai, dnn⟩
  let filter : SmPolicyDoc → Bool := fun d => d.ueId == "imsi-" ++ imsi
  { s with smPolicyData := RestfulAPIPost s.smPolicyData filter smPolicyData }

/-- The source function `updateAmProvisionedData` (lines 450-478). Reading the
bit rates through a nil `qos` pointer is a run-time panic: `none`. -/
def updateAmProvisionedData (s : Store) (snssai : Snssai)
    (qos : Option DeviceGroupsIpDomainExpandedUeDnnQos) (mcc mnc imsi : String) : Option Store :=
  match qos with
  | none => none
  | some q =>
    let amData : AmDataDoc :=
      ⟨"imsi-" ++ imsi, some (mcc ++ mnc), ["msisdn-0900000000"], some snssai,
        some (convertToString (toUint64 q.DnnMbrDownlink),
          convertToString (toUint64 q.DnnMbrUplink))⟩
    let filter : AmDataDoc → Bool := fun d =>
      d.ueId == "imsi-" ++ imsi &&
        (d.servingPlmnId == some (mcc ++ mnc) || d.servingPlmnId == none)
    some { s with amData := RestfulAPIPost s.amData filter amData }

/-- The source function `updateSmProvisionedData` (lines 480-519). Reading the
bit rates through a nil `qos` pointer is a run-time panic: `none`. -/
def updateSmProvisionedData (s : Store) (snssai : Snssai)
    (qos : Option DeviceGroupsIpDomainExpandedUeDnnQos) (mcc mnc dnn imsi : String) :
    Option Store :=
  match qos with
  | none => none
  | some q =>
    let smData : SmDataDoc :=
      ⟨"imsi-" ++ imsi, mcc ++ mnc, snssai, dnn,
        (convertToString (toUint64 q.DnnMbrDownlink),
          convertToString (toUint64 q.DnnMbrUplink))⟩
    let filter : SmDataDoc → Bool := fun d =>
      d.ueId == "imsi-" ++ imsi && d.servingPlmnId == mcc ++ mnc
    some { s with smData := RestfulAPIPost s.smData filter smData }

/-- The source function `updateSmfSelectionProviosionedData` (lines 521-541). -/
def updateSmfSelectionProviosionedData (s : Store) (snssai : Snssai)
    (mcc mnc dnn imsi : String) : Store :=
  let smfSelData : SmfSelDoc := ⟨"imsi-" ++ imsi, mcc ++ mnc, SnssaiModelsToHex snssai, dnn⟩
  let filter : SmfSelDoc → Bool := fun d =>
    d.ueId == "imsi-" ++ imsi && d.servingPlmnId == mcc ++ mnc
  { s with smfSelData := RestfulAPIPost s.smfSelData filter smfSelData }

/-- The five writes the handler makes for one subscriber, in source order
(lines 632-636 and 693-697). -/
def provisionImsi (s : Store) (snssai : Snssai) (dg : DeviceGroups) (mcc mnc imsi : String) :
    Option Store :=
  let dnn := dg.IpDomainExpanded.Dnn
  let s1 := updateAmPolicyData s imsi
  let s2 := updateSmPolicyData s1 snssai dnn imsi
  match updateAmProvisionedData s2 snssai dg.IpDomainExpanded.UeDnnQos mcc mnc imsi with
  | none => none
  | some s3 =>
    match updateSmProvisionedData s3 snssai dg.IpDomainExpanded.UeDnnQos mcc mnc dnn imsi with
    | none => none
    | some s4 => some (updateSmfSelectionProviosionedData s4 snssai mcc mnc dnn imsi)

/-- The five deletes the handler makes for one subscriber, in source order
(lines 641-664 and 708-731): the policy records by subscriber alone, the
provisioned and SMF-selection records by subscriber and network code. -/
def deprovisionImsi (s : Store) (mcc mnc imsi : String) : Store :=
  let amPolicyColl := RestfulAPIDeleteOne s.amPolicyData (fun d => d.ueId == "imsi-" ++ imsi)
  let smPolicyColl := RestfulAPIDeleteOne s.smPolicyData (fun d => d.ueId == "imsi-" ++ imsi)
  let amColl := RestfulAPIDeleteOne s.amData
    (fun d => d.ueId == "imsi-" ++ imsi && d.servingPlmnId == some (mcc ++ mnc))
  let smColl := RestfulAPIDeleteOne s.smData
    (fun d => d.ueId == "imsi-" ++ imsi && d.servingPlmnId == mcc ++ mnc)
  let smfSelColl := RestfulAPIDeleteOne s.smfSelData
    (fun d => d.ueId == "imsi-" ++ imsi && d.servingPlmnId == mcc ++ mnc)
  { s with
    amPolicyData := amPolicyColl, smPolicyData := smPolicyColl, amData := amColl,
    smData := smColl, smfSelData := smfSelColl }

/-- A `for _, x := range xs` loop whose body may panic: the store is threaded
through the elements, and a panic ends the run. -/
def forEach {α : Type} (body : Store → α → Option Store) : List α → Store → Option Store
  | [], s => some s
  | x :: rest, s =>
    match body s x with
    | none => none
    | some s1 => forEach body rest s1

/-! ## Subscriber-sync pipeline -/

/-- The body of the loop of the source function `Config5GUpdateHandle` (lines
587-736) for one message `confData` taken from the channel, run on the store
`s` with the authentication cache `imsiData`. The result is `none` when the
body panics (a write into the nil map `toBsonM` returns for a nil credential,
or a read through a nil pointer). -/
def Config5GUpdateHandleMsg (imsiData : ImsiData) (s : Store) (confData : Update5GSubscriberMsg) :
    Option Store :=
  match confData.Msg.MsgType with
  | MsgType.Sub_data =>
    let imsi := ReplaceAllEmpty confData.Msg.Imsi "imsi-"
    if confData.Msg.MsgMethod ≠ MsgMethod.Delete_op then
      match confData.Msg.AuthSubData with
      | none => none
      | some authData =>
        let filter : AuthSubsDoc → Bool := fun d => d.ueId == confData.Msg.Imsi
        let authDataBsonA : AuthSubsDoc := ⟨confData.Msg.Imsi, authData⟩
        some { s with authSubsData := RestfulAPIPost s.authSubsData filter authDataBsonA }
    else
      let authColl := RestfulAPIDeleteOne s.authSubsData (fun d => d.ueId == "imsi-" ++ imsi)
      let amColl := RestfulAPIDeleteOne s.amData (fun d => d.ueId == "imsi-" ++ imsi)
      some { s with authSubsData := authColl, amData := amColl }
  | MsgType.Device_group =>
    match isDeviceGroupExistInSlice s confData with
    | none => some s
    | some slice =>
      let sVal := ParseUint32 slice.Sst
      let snssai : Snssai := ⟨toInt32 sVal, slice.Sd⟩
      let aimsis := getAddedImsisList imsiData confData.Msg.DevGroup confData.PrevDevGroup
      let added := forEach
        (fun st imsi =>
          match confData.Msg.DevGroup with
          | none => none
          | some devGroup => provisionImsi st snssai devGroup slice.Mcc slice.Mnc imsi)
        aimsis s
      match added with
      | none => none
      | some s1 =>
        let dimsis := getDeletedImsisList confData.Msg.DevGroup confData.PrevDevGroup
        forEach (fun st imsi => some (deprovisionImsi st slice.Mcc slice.Mnc imsi)) dimsis s1
  | MsgType.Network_slice =>
    let slice := confData.Msg.Slice
    let written :=
      match slice with
      | none => some s
      | some sl =>
        let sVal := ParseUint32 sl.Sst
        let snssai : Snssai := ⟨toInt32 sVal, sl.Sd⟩
        forEach
          (fun st dgName =>
            match getDeviceGroupByName st dgName with
            | none => some st
            | some devGroupConfig =>
              forEach
                (fun st2 imsi => provisionImsi st2 snssai devGroupConfig sl.Mcc sl.Mnc imsi)
                devGroupConfig.Imsis st)
          sl.SiteDeviceGroup s
    match written with
    | none => none
    | some s1 =>
      let dgnames := getDeleteGroupsList slice confData.PrevSlice
      forEach
        (fun st dgname =>
          match getDeviceGroupByName st dgname with
          | none => some st
          | some devGroupConfig =>
            forEach
              (fun st2 imsi =>
                match confData.PrevSlice with
                | none => none
                | some prevSlice => some (deprovisionImsi st2 prevSlice.Mcc prevSlice.Mnc imsi))
              devGroupConfig.Imsis st)
        dgnames s1
  | MsgType.Inventory => some s

/-- The source function `Config5GUpdateHandle` (lines 585-738) run over the
messages `confChan` delivers, in order. -/
def Config5GUpdateHandle (imsiData : ImsiData) (confChan : List Update5GSubscriberMsg)
    (s : Store) : Option Store :=
  forEach (fun st confData => Config5GUpdateHandleMsg imsiData st confData) confChan s

/-! ## Reconciliation loop: device-group create/update -/

/-- The source function `handleDeviceGroupPost` (lines 184-199): the new store
and the messages sent on `subsUpdateChan`. `mode5G` is the configuration flag
`Mode5G`. The caller passes only messages with a device-group payload; with a
nil payload no document is written. -/
def handleDeviceGroupPost (mode5G : Bool) (s : Store) (configMsg : ConfigMessage) :
    Store × List Update5GSubscriberMsg :=
  let sent : List Update5GSubscriberMsg :=
    if mode5G then [⟨configMsg, getDeviceGroupByName s configMsg.DevGroupName, none⟩] else []
  let filter : DeviceGroups → Bool := fun d => d.DeviceGroupName == configMsg.DevGroupName
  match configMsg.DevGroup with
  | some devGroup => ({ s with devGroupData := RestfulAPIPost s.devGroupData filter devGroup }, sent)
  | none => (s, sent)

/-! ## A sample configuration -/

/-- A slice "A" with network code 208/93 that references the device group "G". -/
def sliceA : Slice :=
  ⟨"A", "1", "010203", ["G"], "208", "93"⟩

/-- A device group "G" with the single subscriber "001". -/
def groupG : DeviceGroups :=
  ⟨"G", ["001"], ⟨"internet", some ⟨1500000000, 2000000⟩⟩⟩

/-- A store holding the slice "A" and nothing else. -/
def storeSliceA : Store :=
  ⟨[], [sliceA], [], [], [], [], [], []⟩

/-- The create event of the device group "G". -/
def createGroupG : ConfigMessage :=
  ⟨MsgType.Device_group, MsgMethod.Post_op, some groupG, none, none, none, none,
    "G", "", "", "", ""⟩

/-! ## Reconciliation loop -/

/-- The zero value of `configmodels.Slice`. -/
def zeroSlice : Slice :=
  ⟨"", "", "", [], "", ""⟩

/-- The source function `getSliceByName` (lines 350-362): like
`getDeviceGroupByName`, it returns the address of a local that keeps its zero
value when no document is found, so the result is never nil. -/
def getSliceByName (s : Store) (name : String) : Option Slice :=
  let sliceDataInterface := RestfulAPIGetOne s.sliceData (fun d => d.SliceName == name)
  let sliceData :=
    match sliceDataInterface with
    | some d => d
    | none => zeroSlice
  some sliceData

/-- The source function `getDeviceGroups` (lines 302-317). -/
def getDeviceGroups (s : Store) : List DeviceGroups :=
  (RestfulAPIGetMany s.devGroupData).foldl
    (fun deviceGroups devGroupData => deviceGroups ++ [devGroupData]) []

/-- The source function `firstConfigReceived` (lines 298-300). -/
def firstConfigReceived (s : Store) : Bool :=
  decide ((getDeviceGroups s).length > 0) || decide ((getSlices s).length > 0)

/-- The source function `handleSubscriberPost` (lines 170-182): an upsert of
the document holding only `ueId` into `amDataColl`. -/
def handleSubscriberPost (s : Store) (configMsg : ConfigMessage) : Store :=
  let basicAmData : AmDataDoc := ⟨configMsg.Imsi, none, [], none, none⟩
  let filter : AmDataDoc → Bool := fun d => d.ueId == configMsg.Imsi
  { s with amData := RestfulAPIPost s.amData filter basicAmData }

/-- The source function `handleDeviceGroupDelete` (lines 201-215): the new
store and the messages sent on `subsUpdateChan`. -/
def handleDeviceGroupDelete (mode5G : Bool) (s : Store) (configMsg : ConfigMessage) :
    Store × List Update5GSubscriberMsg :=
  let sent : List Update5GSubscriberMsg :=
    if mode5G then [⟨configMsg, getDeviceGroupByName s configMsg.DevGroupName, none⟩] else []
  let filter : DeviceGroups → Bool := fun d => d.DeviceGroupName == configMsg.DevGroupName
  ({ s with devGroupData := RestfulAPIDeleteOne s.devGroupData filter }, sent)

/-- The key of the notification sent on a slice create. -/
def sliceCreateKey : String :=
  "canonical.com/webconsole/networkslice/create"

/-- The key of the notification sent on a slice delete. -/
def sliceDeleteKey : String :=
  "canonical.com/webconsole/networkslice/delete"

/-- The source function `handleNetworkSlicePost` (lines 217-235): the new
store, the messages sent on `subsUpdateChan` and the keys passed to
`sendPebbleNotification`. The caller passes only messages with a slice
payload; with a nil payload no document is written. -/
def handleNetworkSlicePost (mode5G sendPebbleNotifications : Bool) (s : Store)
    (configMsg : ConfigMessage) : Store × List Update5GSubscriberMsg × List String :=
  let sent : List Update5GSubscriberMsg :=
    if mode5G then [⟨configMsg, none, getSliceByName s configMsg.SliceName⟩] else []
  let filter : Slice → Bool := fun d => d.SliceName == configMsg.SliceName
  let keys : List String := if sendPebbleNotifications then [sliceCreateKey] else []
  match configMsg.Slice with
  | some slice => ({ s with sliceData := RestfulAPIPost s.sliceData filter slice }, sent, keys)
  | none => (s, sent, keys)

/-- The source function `handleNetworkSliceDelete` (lines 237-254): the new
store, the messages sent on `subsUpdateChan` and the keys passed to
`sendPebbleNotification`. -/
def handleNetworkSliceDelete (mode5G sendPebbleNotifications : Bool) (s : Store)
    (configMsg : ConfigMessage) : Store × List Update5GSubscriberMsg × List String :=
  let sent : List Update5GSubscriberMsg :=
    if mode5G then [⟨configMsg, none, getSliceByName s configMsg.SliceName⟩] else []
  let filter : Slice → Bool := fun d => d.SliceName == configMsg.SliceName
  let keys : List String := if sendPebbleNotifications then [sliceDeleteKey] else []
  ({ s with sliceData := RestfulAPIDeleteOne s.sliceData filter }, sent, keys)

/-- The source function `handleGnbPost` (lines 256-265) on the collection
`gnbDataColl`. The caller passes only messages with a radio-node payload. -/
def handleGnbPost (gnbData : List Gnb) (configMsg : ConfigMessage) : List Gnb :=
  match configMsg.Gnb with
  | some gnb => RestfulAPIPost gnbData (fun d => d.Name == configMsg.GnbName) gnb
  | none => gnbData

/-- The source function `handleGnbDelete` (lines 267-275). -/
def handleGnbDelete (gnbData : List Gnb) (configMsg : ConfigMessage) : List Gnb :=
  RestfulAPIDeleteOne gnbData (fun d => d.Name == configMsg.GnbName)

/-- The source function `handleUpfPost` (lines 277-286) on the collection
`upfDataColl`. The caller passes only messages with a user-plane payload. -/
def handleUpfPost (upfData : List Upf) (configMsg : ConfigMessage) : List Upf :=
  match configMsg.Upf with
  | some upf => RestfulAPIPost upfData (fun d => d.Hostname == configMsg.UpfHostname) upf
  | none => upfData

/-- The source function `handleUpfDelete` (lines 288-296). -/
def handleUpfDelete (upfData : List Upf) (configMsg : ConfigMessage) : List Upf :=
  RestfulAPIDeleteOne upfData (fun d => d.Hostname == configMsg.UpfHostname)

/-- A registered consumer connection, an entry of `clientNFPool`: its identity
and the content of its channel `outStandingPushConfig`, oldest message first. -/
structure ClientNF where
  id : String
  outStandingPushConfig : List ConfigMessage
  deriving DecidableEq, Repr

/-- The configuration flags of `factory.WebUIConfig.Configuration` the handler
reads. -/
structure Configuration where
  Mode5G : Bool
  SendPebbleNotifications : Bool
  deriving DecidableEq, Repr

/-- Everything the loop of `configHandler` reads and writes: the document
store, the cache `imsiData`, the registry `clientNFPool`, the content of the
channel `subsUpdateChan` (oldest first), the values sent on `configReceived`,
the local flag `firstConfigRcvd`, and the keys passed to
`sendPebbleNotification`. Channels are unbounded here: a send never blocks. -/
structure HandlerState where
  store : Store
  gnbData : List Gnb
  upfData : List Upf
  imsiData : ImsiData
  clientNFPool : List ClientNF
  subsUpdateChan : List Update5GSubscriberMsg
  configReceived : List Bool
  firstConfigRcvd : Bool
  notifications : List String
  deriving DecidableEq, Repr

/-- The loop `for _, client := range clientNFPool` (lines 120-123 and
162-165): the event is sent on the channel of every registered client. -/
def pushConfig (clientNFPool : List ClientNF) (configMsg : ConfigMessage) : List ClientNF :=
  clientNFPool.map
    (fun client =>
      { client with outStandingPushConfig := client.outStandingPushConfig ++ [configMsg] })

/-- Lines 72-85 of `configHandler`: the block run for every event of type
`Sub_data`, whatever its method. -/
def configHandlerSubData (cfg : Configuration) (st : HandlerState) (configMsg : ConfigMessage) :
    HandlerState :=
  if configMsg.MsgType = MsgType.Sub_data then
    let imsiVal := ReplaceAllEmpty configMsg.Imsi "imsi-"
    let imsiData1 := imsiDataSet st.imsiData imsiVal configMsg.AuthSubData
    let store1 := handleSubscriberPost st.store configMsg
    let chan1 :=
      if cfg.Mode5G then st.subsUpdateChan ++ [⟨configMsg, none, none⟩] else st.subsUpdateChan
    { st with imsiData := imsiData1, store := store1, subsUpdateChan := chan1 }
  else st

/-- Lines 88-92 of `configHandler`: the readiness signal, sent on the first
create or update of a device group or a slice. -/
def configHandlerFirstConfig (st : HandlerState) (configMsg : ConfigMessage) : HandlerState :=
  if !st.firstConfigRcvd &&
      (configMsg.MsgType = MsgType.Device_group || configMsg.MsgType = MsgType.Network_slice) then
    { st with firstConfigRcvd := true, configReceived := st.configReceived ++ [true] }
  else st

/-- Lines 96-99 of `configHandler`. -/
def configHandlerDevGroupPost (cfg : Configuration) (st : HandlerState)
    (configMsg : ConfigMessage) : HandlerState :=
  if configMsg.DevGroup ≠ none then
    let r := handleDeviceGroupPost cfg.Mode5G st.store configMsg
    { st with store := r.1, subsUpdateChan := st.subsUpdateChan ++ r.2 }
  else st

/-- Lines 101-104 of `configHandler`. -/
def configHandlerSlicePost (cfg : Configuration) (st : HandlerState)
    (configMsg : ConfigMessage) : HandlerState :=
  if configMsg.Slice ≠ none then
    let r := handleNetworkSlicePost cfg.Mode5G cfg.SendPebbleNotifications st.store configMsg
    { st with store := r.1, subsUpdateChan := st.subsUpdateChan ++ r.2.1, notifications := st.notifications ++ r.2.2 }
  else st

/-- Lines 106-114 of `configHandler`. -/
def configHandlerInventoryPost (st : HandlerState) (configMsg : ConfigMessage) : HandlerState :=
  let st1 :=
    if configMsg.Gnb ≠ none then { st with gnbData := handleGnbPost st.gnbData configMsg } else st
  if configMsg.Upf ≠ none then { st1 with upfData := handleUpfPost st1.upfData configMsg } else st1

/-- Lines 127-134 of `configHandler`. -/
def configHandlerInventoryDelete (st : HandlerState) (configMsg : ConfigMessage) :
    HandlerState :=
  let st1 :=
    if configMsg.GnbName ≠ "" then { st with gnbData := handleGnbDelete st.gnbData configMsg }
    else st
  if configMsg.UpfHostname ≠ "" then { st1 with upfData := handleUpfDelete st1.upfData configMsg }
  else st1

/-- Lines 141-145 of `configHandler`. -/
def configHandlerDevGroupDelete (cfg : Configuration) (st : HandlerState)
    (configMsg : ConfigMessage) : HandlerState :=
  if configMsg.DevGroup = none then
    let r := handleDeviceGroupDelete cfg.Mode5G st.store configMsg
    { st with store := r.1, subsUpdateChan := st.subsUpdateChan ++ r.2 }
  else st

/-- Lines 147-150 of `configHandler`. -/
def configHandlerSliceDelete (cfg : Configuration) (st : HandlerState)
    (configMsg : ConfigMessage) : HandlerState :=
  if configMsg.Slice = none then
    let r := handleNetworkSliceDelete cfg.Mode5G cfg.SendPebbleNotifications st.store configMsg
    { st with store := r.1, subsUpdateChan := st.subsUpdateChan ++ r.2.1, notifications := st.notifications ++ r.2.2 }
  else st

/-- One iteration of the loop of the source function `configHandler` (lines
68-167) on the event `configMsg`. -/
def configHandlerStep (cfg : Configuration) (st : HandlerState) (configMsg : ConfigMessage) :
    HandlerState :=
  let st1 := configHandlerSubData cfg st configMsg
  if configMsg.MsgMethod = MsgMethod.Post_op ∨ configMsg.MsgMethod = MsgMethod.Put_op then
    let st2 := configHandlerFirstConfig st1 configMsg
    let st3 := configHandlerDevGroupPost cfg st2 configMsg
    let st4 := configHandlerSlicePost cfg st3 configMsg
    let st5 := configHandlerInventoryPost st4 configMsg
    { st5 with clientNFPool := pushConfig st5.clientNFPool configMsg }
  else
    let st2 :=
      if configMsg.MsgType = MsgType.Inventory then configHandlerInventoryDelete st1 configMsg
      else if configMsg.MsgType ≠ MsgType.Sub_data then
        configHandlerSliceDelete cfg (configHandlerDevGroupDelete cfg st1 configMsg) configMsg
      else st1
    let st3 :=
      if cfg.Mode5G then { st2 with subsUpdateChan := st2.subsUpdateChan ++ [⟨configMsg, none, none⟩] }
      else st2
    { st3 with clientNFPool := pushConfig st3.clientNFPool configMsg }

/-- The start of the source function `configHandler` (lines 57-67): a fresh
channel `subsUpdateChan`, the flag `firstConfigRcvd` read from the store, and
the readiness signal when it is set. -/
def configHandlerStart (store : Store) (gnbData : List Gnb) (upfData : List Upf)
    (imsiData : ImsiData) (clientNFPool : List ClientNF) : HandlerState :=
  let firstConfigRcvd := firstConfigReceived store
  let configReceived : List Bool := if firstConfigRcvd then [true] else []
  ⟨store, gnbData, upfData, imsiData, clientNFPool, [], configReceived, firstConfigRcvd, []⟩

/-- The loop of the source function `configHandler` run over the events
`configMsgChan` delivers, in order, from the state `st`. -/
def configHandlerLoop (cfg : Configuration) (st : HandlerState) (configMsgChan : List ConfigMessage) :
    HandlerState :=
  configMsgChan.foldl (fun acc configMsg => configHandlerStep cfg acc configMsg) st

/-- The source function `configHandler` (lines 57-168) run over the events
`configMsgChan` delivers. -/
def configHandler (cfg : Configuration) (store : Store) (gnbData : List Gnb) (upfData : List Upf)
    (imsiData : ImsiData) (clientNFPool : List ClientNF) (configMsgChan : List ConfigMessage) :
    HandlerState :=
  configHandlerLoop cfg (configHandlerStart store gnbData upfData imsiData clientNFPool)
    configMsgChan

/-- The pipeline `Config5GUpdateHandle` takes every message waiting on
`subsUpdateChan` and applies it to the store; `none` when it panics. -/
def drainSubsUpdateChan (st : HandlerState) : Option HandlerState :=
  match Config5GUpdateHandle st.imsiData st.subsUpdateChan st.store with
  | none => none
  | some store1 => some { st with store := store1, subsUpdateChan := [] }

/-- One event applied in full in full-core mode: the iteration of
`configHandler`, then the pipeline consuming the messages the iteration sent. -/
def applyEvent (cfg : Configuration) (st : HandlerState) (configMsg : ConfigMessage) :
    Option HandlerState :=
  drainSubsUpdateChan (configHandlerStep cfg st configMsg)

/-- Events applied in full one after another. -/
def applyEvents (cfg : Configuration) : List ConfigMessage → HandlerState → Option HandlerState
  | [], st => some st
  | configMsg :: rest, st =>
    match applyEvent cfg st configMsg with
    | none => none
    | some st1 => applyEvents cfg rest st1

/-- The condition of lines 87-88 of `configHandler` on an event: its method is
`Post_op` or `Put_op` and its type is `Device_group` or `Network_slice`. -/
def isFirstConfigEvent (configMsg : ConfigMessage) : Bool :=
  (decide (configMsg.MsgMethod = MsgMethod.Post_op) ||
      decide (configMsg.MsgMethod = MsgMethod.Put_op)) &&
    (decide (configMsg.MsgType = MsgType.Device_group) ||
      decide (configMsg.MsgType = MsgType.Network_slice))

/-! ## Sample events and states -/

/-- The store with every collection empty. -/
def emptyStore : Store :=
  ⟨[], [], [], [], [], [], [], []⟩

/-- The create event of a slice: type `Network_slice`, method `Post_op`, the
slice as payload and its name as `SliceName`. -/
def sliceCreateEvent (slice : Slice) : ConfigMessage :=
  ⟨MsgType.Network_slice, MsgMethod.Post_op, none, some slice, none, none, none,
    "", slice.SliceName, "", "", ""⟩

/-- The create event of a device group: type `Device_group`, method `Post_op`,
the group as payload and its name as `DevGroupName`. -/
def groupCreateEvent (devGroup : DeviceGroups) : ConfigMessage :=
  ⟨MsgType.Device_group, MsgMethod.Post_op, some devGroup, none, none, none, none,
    devGroup.DeviceGroupName, "", "", "", ""⟩

/-- The delete event of a device group: type `Device_group`, method
`Delete_op`, no payload, the group name as `DevGroupName` and every other name
empty. -/
def groupDeleteEvent (devGroupName : String) : ConfigMessage :=
  ⟨MsgType.Device_group, MsgMethod.Delete_op, none, none, none, none, none,
    devGroupName, "", "", "", ""⟩

/-- The delete event of the credential of a subscriber: type `Sub_data`, method
`Delete_op`, no payload. -/
def subscriberDeleteEvent (imsi : String) : ConfigMessage :=
  ⟨MsgType.Sub_data, MsgMethod.Delete_op, none, none, none, none, none,
    "", "", "", "", imsi⟩

/-- The state of the loop at startup on an empty store, with the given cache
and registry. -/
def startState (imsiData : ImsiData) (clientNFPool : List ClientNF) : HandlerState :=
  configHandlerStart emptyStore [] [] imsiData clientNFPool

/-- The keys of the derived records of a store: the `ueId` of the AM-policy and
SM-policy documents, and the `ueId` and `servingPlmnId` of the AM-provisioned,
SM-provisioned and SMF-selection documents. -/
def derivedKeys (s : Store) :
    List String × List String × List (String × Option String) × List (String × String) ×
      List (String × String) :=
  (s.amPolicyData.map (fun d => d.ueId), s.smPolicyData.map (fun d => d.ueId),
    s.amData.map (fun d => (d.ueId, d.servingPlmnId)),
    s.smData.map (fun d => (d.ueId, d.servingPlmnId)),
    s.smfSelData.map (fun d => (d.ueId, d.servingPlmnId)))

/-! ## Helper lemmas on the loop shapes -/

/-- A loop that sets a flag on a match computes list membership. -/
theorem foldl_found_eq {α : Type} [DecidableEq α] (p : α → Prop) [DecidablePred p]
    (xs : List α) (b : Bool) :
    xs.foldl (fun found x => if p x then true else found) b = (b || xs.any (fun x => decide (p x))) := by
  induction xs generalizing b with
  | nil => simp
  | cons x xs ih =>
    simp only [List.foldl_cons, List.any_cons]
    rw [ih]
    by_cases h : p x <;> simp [h]

/-- Scanning a list for an element decides membership. -/
theorem any_eq_decide_mem (a : String) (xs : List String) :
    xs.any (fun x => decide (a = x)) = decide (a ∈ xs) := by
  induction xs with
  | nil => simp
  | cons x xs ih => simp [List.any_cons, ih]

/-- A loop that appends the elements passing a test computes a filter. -/
theorem foldl_append_eq_filter {α : Type} (q : α → Bool) (xs acc : List α) :
    xs.foldl (fun acc x => if q x then acc ++ [x] else acc) acc = acc ++ xs.filter q := by
  induction xs generalizing acc with
  | nil => simp
  | cons x xs ih =>
    simp only [List.foldl_cons]
    rw [ih]
    by_cases h : q x = true
    · simp [h, List.filter_cons]
    · simp [h, List.filter_cons]

/-- With an absent previous group, the added list is the new list filtered by
the cache. -/
theorem getAddedImsisList_first (c : ImsiData) (g : DeviceGroups) :
    getAddedImsisList c (some g) none
      = g.Imsis.filter (fun imsi => (imsiDataGet c imsi).isSome) := by
  simp only [getAddedImsisList]
  rw [foldl_append_eq_filter (fun imsi => (imsiDataGet c imsi).isSome)]
  simp

/-- With both groups present, the added list is the new list without the
previous members. -/
theorem getAddedImsisList_update (c : ImsiData) (g p : DeviceGroups) :
    getAddedImsisList c (some g) (some p)
      = g.Imsis.filter (fun imsi => !decide (imsi ∈ p.Imsis)) := by
  simp only [getAddedImsisList]
  have h : ∀ imsi : String,
      (!(p.Imsis.foldl (fun found pimsi => if pimsi = imsi then true else found) false))
        = !decide (imsi ∈ p.Imsis) := by
    intro imsi
    rw [foldl_found_eq (fun pimsi => pimsi = imsi)]
    simp only [Bool.false_or, eq_comm, any_eq_decide_mem]
  simp only [h]
  rw [foldl_append_eq_filter (fun imsi => !decide (imsi ∈ p.Imsis))]
  simp

/-- With both groups present, the deleted list is the previous list without the
new members. -/
theorem getDeletedImsisList_update (g p : DeviceGroups) :
    getDeletedImsisList (some g) (some p)
      = p.Imsis.filter (fun pimsi => !decide (pimsi ∈ g.Imsis)) := by
  simp only [getDeletedImsisList]
  have h : ∀ pimsi : String,
      (!(g.Imsis.foldl (fun found imsi => if pimsi = imsi then true else found) false))
        = !decide (pimsi ∈ g.Imsis) := by
    intro pimsi
    rw [foldl_found_eq (fun imsi => pimsi = imsi)]
    simp only [Bool.false_or, any_eq_decide_mem]
  simp only [h]
  rw [foldl_append_eq_filter (fun pimsi => !decide (pimsi ∈ g.Imsis))]
  simp

/-- The early-exit scan of `getDeleteGroupsList` computes list membership. -/
theorem foundInGroups_eq (pdgName : String) (names : List String) :
    foundInGroups pdgName names = decide (pdgName ∈ names) := by
  induction names with
  | nil => simp [foundInGroups]
  | cons n rest ih =>
    simp only [foundInGroups, ih]
    by_cases h : n = pdgName
    · simp [h]
    · have h2 : ¬ pdgName = n := fun e => h e.symm
      simp [h, h2]

/-- With both slices present, the deleted group references are the previous
references without the new ones. -/
theorem getDeleteGroupsList_update (s p : Slice) :
    getDeleteGroupsList (some s) (some p)
      = p.SiteDeviceGroup.filter (fun n => !decide (n ∈ s.SiteDeviceGroup)) := by
  simp only [getDeleteGroupsList, foundInGroups_eq]
  rw [foldl_append_eq_filter (fun n => !decide (n ∈ s.SiteDeviceGroup))]
  simp

/-! ## Claims -/

/-- C1: for every new and previous device group (each present or absent) and
every authentication cache, no subscriber identity occurs both in
`getAddedImsisList new prev` and in `getDeletedImsisList new prev`. -/
theorem added_deleted_disjoint (c : ImsiData) (group prevGroup : Option DeviceGroups)
    (imsi : String) :
    ¬ (imsi ∈ getAddedImsisList c group prevGroup ∧ imsi ∈ getDeletedImsisList group prevGroup) := by
  rintro ⟨ha, hd⟩
  cases group with
  | none => simp [getAddedImsisList] at ha
  | some g =>
    cases prevGroup with
    | none => simp [getDeletedImsisList] at hd
    | some p =>
      rw [getAddedImsisList_update] at ha
      rw [getDeletedImsisList_update] at hd
      simp only [List.mem_filter, Bool.not_eq_true', decide_eq_false_iff_not] at ha hd
      exact hd.2 ha.1

/-- C2: for two present device groups, the set of added subscribers united with
the set of subscribers common to the new and the previous list is the set of
subscribers of the new list. -/
theorem added_union_common_eq_new (c : ImsiData) (g p : DeviceGroups) :
    (getAddedImsisList c (some g) (some p)).toFinset ∪ (g.Imsis.toFinset ∩ p.Imsis.toFinset)
      = g.Imsis.toFinset := by
  rw [getAddedImsisList_update]
  ext imsi
  simp only [Finset.mem_union, Finset.mem_inter, List.mem_toFinset, List.mem_filter,
    Bool.not_eq_true', decide_eq_false_iff_not]
  constructor
  · rintro (h | h)
    · exact h.1
    · exact h.1
  · intro h
    by_cases hp : imsi ∈ p.Imsis
    · exact Or.inr ⟨h, hp⟩
    · exact Or.inl ⟨h, hp⟩

/-- C3: for a present new group and an absent previous group,
`getAddedImsisList` contains exactly the subscribers of the new list whose
credential in the cache is not nil. -/
theorem added_first_creation_iff_cached (c : ImsiData) (g : DeviceGroups) (imsi : String) :
    imsi ∈ getAddedImsisList c (some g) none ↔ (imsi ∈ g.Imsis ∧ imsiDataGet c imsi ≠ none) := by
  rw [getAddedImsisList_first]
  simp [List.mem_filter, Option.isSome_iff_ne_none]

/-- C4: `getDeletedImsisList nil prev` is the previous subscriber list, and for
a present new group a subscriber is deleted iff it is in the previous list and
not in the new one. -/
theorem deleted_spec (p : DeviceGroups) :
    getDeletedImsisList none (some p) = p.Imsis ∧
      ∀ (g : DeviceGroups) (imsi : String),
        imsi ∈ getDeletedImsisList (some g) (some p) ↔ (imsi ∈ p.Imsis ∧ imsi ∉ g.Imsis) := by
  refine ⟨rfl, ?_⟩
  intro g imsi
  rw [getDeletedImsisList_update]
  simp [List.mem_filter]

/-- C5: when the previous and the new snapshot are the same group, both the
added and the deleted list are empty. -/
theorem same_snapshot_empty_delta (c : ImsiData) (g : DeviceGroups) :
    getAddedImsisList c (some g) (some g) = [] ∧ getDeletedImsisList (some g) (some g) = [] := by
  rw [getAddedImsisList_update, getDeletedImsisList_update]
  simp [List.filter_eq_nil_iff]

/-- C6: `convertToString v` is the decimal of `v / 10^9` followed by " Gbps"
when `v >= 10^9`, else the decimal of `v / 10^6` followed by " Mbps" when
`v >= 10^6`, else the decimal of `v / 1000` followed by " Kbps" when
`v >= 1000`, else the decimal of `v` followed by " bps"; with the five sample
values of the specification. The statement holds for every natural number, in
particular for every unsigned 64-bit value. -/
theorem convertToString_spec :
    (∀ v : Nat, convertToString v =
      if 1000000000 ≤ v then FormatUint (v / 1000000000) 10 ++ " Gbps"
      else if 1000000 ≤ v then FormatUint (v / 1000000) 10 ++ " Mbps"
      else if 1000 ≤ v then FormatUint (v / 1000) 10 ++ " Kbps"
      else FormatUint v 10 ++ " bps") ∧
    convertToString 1500000000 = "1 Gbps" ∧
    convertToString 2000000 = "2 Mbps" ∧
    convertToString 1500 = "1 Kbps" ∧
    convertToString 999 = "999 bps" ∧
    convertToString 0 = "0 bps" := by
  refine ⟨?_, by decide, by decide, by decide, by decide, by decide⟩
  intro v
  have hg : v / 1000000000 ≠ 0 ↔ 1000000000 ≤ v := by omega
  have hm : v / 1000000 ≠ 0 ↔ 1000000 ≤ v := by omega
  have hk : v / 1000 ≠ 0 ↔ 1000 ≤ v := by omega
  simp only [convertToString, hg, hm, hk]

/-- C8 (as the code behaves): for a present slice and no previous version,
`getAddedGroupsList` returns all the group references of the slice. -/
theorem getAddedGroupsList_first (s : Slice) :
    getAddedGroupsList (some s) none = s.SiteDeviceGroup := by
  simp [getAddedGroupsList, getDeleteGroupsList]

/-- C8, counterexample: a slice referencing the group "g", created with no
previous version, has the added-references list `["g"]`, not the empty list. -/
theorem getAddedGroupsList_first_nonempty :
    getAddedGroupsList (some ⟨"a", "1", "010203", ["g"], "208", "93"⟩) none ≠ [] := by
  decide

/-- C9: `getDeleteGroupsList nil prev` is the previous reference list, and for a
present new slice a group name is deleted iff it is referenced by the previous
slice and not by the new one. -/
theorem getDeleteGroupsList_spec (p : Slice) :
    getDeleteGroupsList none (some p) = p.SiteDeviceGroup ∧
      ∀ (s : Slice) (name : String),
        name ∈ getDeleteGroupsList (some s) (some p)
          ↔ (name ∈ p.SiteDeviceGroup ∧ name ∉ s.SiteDeviceGroup) := by
  refine ⟨by simp [getDeleteGroupsList], ?_⟩
  intro s name
  rw [getDeleteGroupsList_update]
  simp [List.mem_filter]

/-- C10 (as the code behaves): the added list repeats no subscriber whenever
the new subscriber list repeats none; and duplicates do not collapse: every
subscriber that occurs in the added list occurs in it exactly as many times as
it is listed in the new group. -/
theorem getAddedImsisList_nodup (c : ImsiData) (group prevGroup : Option DeviceGroups) :
    ((∀ g, group = some g → g.Imsis.Nodup) → (getAddedImsisList c group prevGroup).Nodup) ∧
    (∀ (g : DeviceGroups) (imsi : String), group = some g →
      imsi ∈ getAddedImsisList c group prevGroup →
        (getAddedImsisList c group prevGroup).count imsi = g.Imsis.count imsi) := by
  cases group with
  | none =>
    refine ⟨fun _ => ?_, ?_⟩
    · simp [getAddedImsisList]
    · intro g imsi hg
      cases hg
  | some g0 =>
    cases prevGroup with
    | none =>
      rw [getAddedImsisList_first]
      refine ⟨fun h => (h g0 rfl).filter _, ?_⟩
      intro g imsi hg hmem
      cases hg
      exact List.count_filter (List.mem_filter.mp hmem).2
    | some p =>
      rw [getAddedImsisList_update]
      refine ⟨fun h => (h g0 rfl).filter _, ?_⟩
      intro g imsi hg hmem
      cases hg
      exact List.count_filter (List.mem_filter.mp hmem).2

/-- C10, witness: a new group listing two distinct subscribers, one of them
already in the previous group, has the added list without repetition; a new
group listing "001" twice and "002" once, against a previous group holding
"002", has "001" twice in the added list, as in the new list. -/
theorem getAddedImsisList_nodup_witness :
    (["001", "002"] : List String).Nodup ∧
    (getAddedImsisList [] (some ⟨"g", ["001", "002"], ⟨"internet", none⟩⟩)
        (some ⟨"g", ["002"], ⟨"internet", none⟩⟩)).Nodup ∧
    "001" ∈ getAddedImsisList [] (some ⟨"g", ["001", "001", "002"], ⟨"internet", none⟩⟩)
        (some ⟨"g", ["002"], ⟨"internet", none⟩⟩) ∧
    (getAddedImsisList [] (some ⟨"g", ["001", "001", "002"], ⟨"internet", none⟩⟩)
        (some ⟨"g", ["002"], ⟨"internet", none⟩⟩)).count "001"
      = (["001", "001", "002"] : List String).count "001" :=
  ⟨by decide,
    (getAddedImsisList_nodup [] (some ⟨"g", ["001", "002"], ⟨"internet", none⟩⟩)
      (some ⟨"g", ["002"], ⟨"internet", none⟩⟩)).1
      (by intro g hg; cases hg; decide),
    by decide,
    (getAddedImsisList_nodup [] (some ⟨"g", ["001", "001", "002"], ⟨"internet", none⟩⟩)
      (some ⟨"g", ["002"], ⟨"internet", none⟩⟩)).2
      ⟨"g", ["001", "001", "002"], ⟨"internet", none⟩⟩ "001" rfl (by decide)⟩

/-- C10, counterexample: a new group listing the subscriber "001" twice,
against a previous group with no subscribers, yields "001" twice. -/
theorem getAddedImsisList_keeps_duplicates :
    getAddedImsisList [] (some ⟨"g", ["001", "001"], ⟨"internet", none⟩⟩)
        (some ⟨"g", [], ⟨"internet", none⟩⟩) = ["001", "001"] ∧
      ¬ (getAddedImsisList [] (some ⟨"g", ["001", "001"], ⟨"internet", none⟩⟩)
        (some ⟨"g", [], ⟨"internet", none⟩⟩)).Nodup := by
  decide

/-- C7, the code at a failing input: the pipeline never receives a nil previous
device group from `handleDeviceGroupPost`, because `getDeviceGroupByName` never
returns nil. With the slice "A" stored, no snapshot of "G" stored and an empty
authentication cache, the create event of "G" run in full-core mode writes all
five derived records for the subscriber "001", which has no credential. -/
theorem create_group_provisions_uncached_subscriber :
    (∀ (s : Store) (name : String), getDeviceGroupByName s name ≠ none) ∧
    imsiDataGet [] "001" = none ∧
    RestfulAPIGetOne storeSliceA.devGroupData (fun d => d.DeviceGroupName == "G") = none ∧
    (handleDeviceGroupPost true storeSliceA createGroupG).2
      = [⟨createGroupG, some zeroDeviceGroups, none⟩] ∧
    (Config5GUpdateHandle [] (handleDeviceGroupPost true storeSliceA createGroupG).2
        (handleDeviceGroupPost true storeSliceA createGroupG).1)
      = some ⟨[groupG], [sliceA], [],
          [⟨"imsi-001", some "20893", ["msisdn-0900000000"], some ⟨1, "010203"⟩,
            some ("2 Mbps", "1 Gbps")⟩],
          [⟨"imsi-001", "20893", ⟨1, "010203"⟩, "internet", ("2 Mbps", "1 Gbps")⟩],
          [⟨"imsi-001", "20893", "01010203", "internet"⟩],
          [⟨"imsi-001", ["free5gc"]⟩],
          [⟨"imsi-001", "01010203", ⟨1, "010203"⟩, "internet"⟩]⟩ := by
  refine ⟨?_, by decide, by decide, by decide, by decide⟩
  intro s name
  simp [getDeviceGroupByName]

/-! ## The loop of `configHandler` -/

/-- The readiness block sets the flag and sends the signal when the flag is
clear and the event is of type device group or slice; it leaves the registry
untouched. -/
theorem configHandlerFirstConfig_fields (st : HandlerState) (configMsg : ConfigMessage) :
    (configHandlerFirstConfig st configMsg).clientNFPool = st.clientNFPool ∧
    (configHandlerFirstConfig st configMsg).firstConfigRcvd
      = (st.firstConfigRcvd ||
          (decide (configMsg.MsgType = MsgType.Device_group) ||
            decide (configMsg.MsgType = MsgType.Network_slice))) ∧
    (configHandlerFirstConfig st configMsg).configReceived
      = st.configReceived ++
          (if (!st.firstConfigRcvd &&
              (decide (configMsg.MsgType = MsgType.Device_group) ||
                decide (configMsg.MsgType = MsgType.Network_slice))) = true
            then [true] else []) := by
  unfold configHandlerFirstConfig
  split
  · rename_i h
    simp only [Bool.and_eq_true, Bool.not_eq_true'] at h
    simp [h.1, h.2]
  · rename_i h
    simp only [h]
    cases hf : st.firstConfigRcvd <;> simp_all

/-- The parts of an iteration other than the readiness block leave the flag
`firstConfigRcvd`, the sent readiness signals and the registry untouched. -/
theorem configHandler_blocks_keep (cfg : Configuration) (st : HandlerState)
    (configMsg : ConfigMessage) :
    ((configHandlerSubData cfg st configMsg).firstConfigRcvd = st.firstConfigRcvd ∧
      (configHandlerSubData cfg st configMsg).configReceived = st.configReceived ∧
      (configHandlerSubData cfg st configMsg).clientNFPool = st.clientNFPool) ∧
    ((configHandlerDevGroupPost cfg st configMsg).firstConfigRcvd = st.firstConfigRcvd ∧
      (configHandlerDevGroupPost cfg st configMsg).configReceived = st.configReceived ∧
      (configHandlerDevGroupPost cfg st configMsg).clientNFPool = st.clientNFPool) ∧
    ((configHandlerSlicePost cfg st configMsg).firstConfigRcvd = st.firstConfigRcvd ∧
      (configHandlerSlicePost cfg st configMsg).configReceived = st.configReceived ∧
      (configHandlerSlicePost cfg st configMsg).clientNFPool = st.clientNFPool) ∧
    ((configHandlerInventoryPost st configMsg).firstConfigRcvd = st.firstConfigRcvd ∧
      (configHandlerInventoryPost st configMsg).configReceived = st.configReceived ∧
      (configHandlerInventoryPost st configMsg).clientNFPool = st.clientNFPool) ∧
    ((configHandlerInventoryDelete st configMsg).firstConfigRcvd = st.firstConfigRcvd ∧
      (configHandlerInventoryDelete st configMsg).configReceived = st.configReceived ∧
      (configHandlerInventoryDelete st configMsg).clientNFPool = st.clientNFPool) ∧
    ((configHandlerDevGroupDelete cfg st configMsg).firstConfigRcvd = st.firstConfigRcvd ∧
      (configHandlerDevGroupDelete cfg st configMsg).configReceived = st.configReceived ∧
      (configHandlerDevGroupDelete cfg st configMsg).clientNFPool = st.clientNFPool) ∧
    ((configHandlerSliceDelete cfg st configMsg).firstConfigRcvd = st.firstConfigRcvd ∧
      (configHandlerSliceDelete cfg st configMsg).configReceived = st.configReceived ∧
      (configHandlerSliceDelete cfg st configMsg).clientNFPool = st.clientNFPool) := by
  refine ⟨?_, ?_, ?_, ?_, ?_, ?_, ?_⟩
  · unfold configHandlerSubData; split <;> simp
  · unfold configHandlerDevGroupPost; split <;> simp
  · unfold configHandlerSlicePost; split <;> simp
  · unfold configHandlerInventoryPost; split <;> split <;> simp
  · unfold configHandlerInventoryDelete; split <;> split <;> simp
  · unfold configHandlerDevGroupDelete; split <;> simp
  · unfold configHandlerSliceDelete; split <;> simp

/-- One iteration sends the event once on the channel of every client. -/
theorem configHandlerStep_clientNFPool (cfg : Configuration) (st : HandlerState)
    (configMsg : ConfigMessage) :
    (configHandlerStep cfg st configMsg).clientNFPool = pushConfig st.clientNFPool configMsg := by
  have k := configHandler_blocks_keep cfg
  unfold configHandlerStep
  simp only
  split
  · simp only [(k _ configMsg).2.2.2.1.2.2, (k _ configMsg).2.2.1.2.2, (k _ configMsg).2.1.2.2,
      (configHandlerFirstConfig_fields _ configMsg).1, (k _ configMsg).1.2.2]
  · split <;> split <;> try split
    all_goals
      simp only [(k _ configMsg).2.2.2.2.1.2.2, (k _ configMsg).2.2.2.2.2.1.2.2,
        (k _ configMsg).2.2.2.2.2.2.2.2, (k _ configMsg).1.2.2]

/-- One iteration sets the flag `firstConfigRcvd` on a first-configuration
event, and sends the readiness signal only when it sets the flag. -/
theorem configHandlerStep_firstConfig (cfg : Configuration) (st : HandlerState)
    (configMsg : ConfigMessage) :
    (configHandlerStep cfg st configMsg).firstConfigRcvd
      = (st.firstConfigRcvd || isFirstConfigEvent configMsg) ∧
    (configHandlerStep cfg st configMsg).configReceived
      = st.configReceived ++
          (if (!st.firstConfigRcvd && isFirstConfigEvent configMsg) = true then [true] else []) := by
  have k := configHandler_blocks_keep cfg
  have f := configHandlerFirstConfig_fields
  unfold configHandlerStep isFirstConfigEvent
  simp only
  split
  · rename_i h
    have hm : (decide (configMsg.MsgMethod = MsgMethod.Post_op) ||
        decide (configMsg.MsgMethod = MsgMethod.Put_op)) = true := by
      simpa using h
    simp only [hm, Bool.true_and]
    simp only [(k _ configMsg).2.2.2.1.1, (k _ configMsg).2.2.2.1.2.1, (k _ configMsg).2.2.1.1,
      (k _ configMsg).2.2.1.2.1, (k _ configMsg).2.1.1, (k _ configMsg).2.1.2.1,
      (f _ configMsg).2.1, (f _ configMsg).2.2, (k _ configMsg).1.1, (k _ configMsg).1.2.1]
    exact ⟨trivial, trivial⟩
  · rename_i h
    have hm : (decide (configMsg.MsgMethod = MsgMethod.Post_op) ||
        decide (configMsg.MsgMethod = MsgMethod.Put_op)) = false := by
      simpa using h
    simp only [hm, Bool.false_and, Bool.and_false, Bool.or_false, Bool.false_eq_true,
      if_false, List.append_nil]
    split <;> split <;> try split
    all_goals
      simp [(k _ configMsg).2.2.2.2.1.1, (k _ configMsg).2.2.2.2.1.2.1,
        (k _ configMsg).2.2.2.2.2.1.1, (k _ configMsg).2.2.2.2.2.1.2.1,
        (k _ configMsg).2.2.2.2.2.2.1, (k _ configMsg).2.2.2.2.2.2.2.1,
        (k _ configMsg).1.1, (k _ configMsg).1.2.1]

/-- Over a sequence of events the flag `firstConfigRcvd` becomes set at the
first first-configuration event, and the readiness signal is sent then, once,
unless the flag was set from the start. -/
theorem configHandlerLoop_firstConfig (cfg : Configuration) (configMsgChan : List ConfigMessage)
    (st : HandlerState) :
    (configHandlerLoop cfg st configMsgChan).firstConfigRcvd
      = (st.firstConfigRcvd || configMsgChan.any isFirstConfigEvent) ∧
    (configHandlerLoop cfg st configMsgChan).configReceived
      = st.configReceived ++
          (if (!st.firstConfigRcvd && configMsgChan.any isFirstConfigEvent) = true
            then [true] else []) := by
  induction configMsgChan generalizing st with
  | nil => simp [configHandlerLoop]
  | cons configMsg rest ih =>
    have hs := configHandlerStep_firstConfig cfg st configMsg
    have hr := ih (configHandlerStep cfg st configMsg)
    simp only [configHandlerLoop, List.foldl_cons] at hr ⊢
    rw [hr.1, hr.2, hs.1, hs.2, List.any_cons]
    generalize st.firstConfigRcvd = a
    generalize isFirstConfigEvent configMsg = b
    generalize rest.any isFirstConfigEvent = c
    generalize st.configReceived = l
    cases a <;> cases b <;> cases c <;> simp

/-- Over a sequence of events every client receives every event once, in
order. -/
theorem configHandlerLoop_clientNFPool (cfg : Configuration) (configMsgChan : List ConfigMessage)
    (st : HandlerState) :
    (configHandlerLoop cfg st configMsgChan).clientNFPool
      = st.clientNFPool.map
          (fun client => ⟨client.id, client.outStandingPushConfig ++ configMsgChan⟩) := by
  induction configMsgChan generalizing st with
  | nil => simp [configHandlerLoop]
  | cons configMsg rest ih =>
    have hr := ih (configHandlerStep cfg st configMsg)
    simp only [configHandlerLoop, List.foldl_cons] at hr ⊢
    rw [hr, configHandlerStep_clientNFPool]
    simp [pushConfig, List.map_map, Function.comp_def]

/-- C11: one iteration of the loop of `configHandler` puts exactly one copy of
the event at the end of the outbound queue of every registered connection
(and of none when the registry is empty), whatever the event and the
configuration; over a sequence of events every queue receives the events once
each, in event order. -/
theorem broadcast_one_copy_per_connection (cfg : Configuration) (st : HandlerState) :
    (∀ configMsg : ConfigMessage,
      (configHandlerStep cfg st configMsg).clientNFPool
        = st.clientNFPool.map
            (fun client => ⟨client.id, client.outStandingPushConfig ++ [configMsg]⟩)) ∧
    (∀ configMsgChan : List ConfigMessage,
      (configHandlerLoop cfg st configMsgChan).clientNFPool
        = st.clientNFPool.map
            (fun client => ⟨client.id, client.outStandingPushConfig ++ configMsgChan⟩)) := by
  constructor
  · intro configMsg
    rw [configHandlerStep_clientNFPool]
    rfl
  · intro configMsgChan
    exact configHandlerLoop_clientNFPool cfg configMsgChan st

/-- C13: over every finite sequence of events `configHandler` sends the
readiness signal at most once. The signals sent are `[true]` when
`firstConfigReceived` holds at startup or some event of the sequence is a
create or update of a device group or a slice, and none otherwise; at startup
the signal is sent iff `firstConfigReceived` holds; and processing one more
event sends the signal iff `firstConfigReceived` did not hold at startup, no
earlier event was such a create or update, and this event is one. -/
theorem readiness_signal_once (cfg : Configuration) (store : Store) (gnbData : List Gnb)
    (upfData : List Upf) (imsiData : ImsiData) (clientNFPool : List ClientNF) :
    (configHandler cfg store gnbData upfData imsiData clientNFPool []).configReceived
        = (if firstConfigReceived store = true then [true] else []) ∧
    (∀ configMsgChan : List ConfigMessage,
      (configHandler cfg store gnbData upfData imsiData clientNFPool configMsgChan).configReceived
        = (if (firstConfigReceived store || configMsgChan.any isFirstConfigEvent) = true
            then [true] else [])) ∧
    (∀ (configMsgChan : List ConfigMessage) (configMsg : ConfigMessage),
      (configHandler cfg store gnbData upfData imsiData clientNFPool
          (configMsgChan ++ [configMsg])).configReceived
        = (configHandler cfg store gnbData upfData imsiData clientNFPool
            configMsgChan).configReceived ++
          (if (!firstConfigReceived store && !configMsgChan.any isFirstConfigEvent &&
              isFirstConfigEvent configMsg) = true then [true] else [])) := by
  have closed : ∀ configMsgChan : List ConfigMessage,
      (configHandler cfg store gnbData upfData imsiData clientNFPool configMsgChan).configReceived
        = (if (firstConfigReceived store || configMsgChan.any isFirstConfigEvent) = true
            then [true] else []) := by
    intro configMsgChan
    unfold configHandler
    rw [(configHandlerLoop_firstConfig cfg configMsgChan _).2]
    simp only [configHandlerStart]
    have key : ∀ a b : Bool,
        ((if a = true then [true] else []) ++
            (if (!a && b) = true then [true] else ([] : List Bool)))
          = (if (a || b) = true then [true] else []) := by
      intro a b
      cases a <;> cases b <;> simp
    exact key _ _
  refine ⟨?_, closed, ?_⟩
  · rw [closed]; simp
  · intro configMsgChan configMsg
    rw [closed, closed, List.any_append, List.any_cons, List.any_nil, Bool.or_false]
    generalize firstConfigReceived store = a
    generalize configMsgChan.any isFirstConfigEvent = b
    generalize isFirstConfigEvent configMsg = c
    cases a <;> cases b <;> cases c <;> simp

/-- C12 (as the code behaves): a subscriber-credential delete event is sent on
the channel of every registered client, like any other event; in full-core
mode it is also put on `subsUpdateChan`, twice (once by the `Sub_data` block,
once by the delete branch). -/
theorem sub_data_delete_reaches_clients (cfg : Configuration) (st : HandlerState)
    (configMsg : ConfigMessage) (ht : configMsg.MsgType = MsgType.Sub_data)
    (hm : configMsg.MsgMethod = MsgMethod.Delete_op) :
    (configHandlerStep cfg st configMsg).clientNFPool
      = st.clientNFPool.map
          (fun client => ⟨client.id, client.outStandingPushConfig ++ [configMsg]⟩) ∧
    (configHandlerStep cfg st configMsg).subsUpdateChan
      = st.subsUpdateChan ++
          (if cfg.Mode5G = true then [⟨configMsg, none, none⟩, ⟨configMsg, none, none⟩] else []) := by
  constructor
  · rw [configHandlerStep_clientNFPool]
    rfl
  · unfold configHandlerStep configHandlerSubData
    cases h5 : cfg.Mode5G <;> simp [ht, hm, h5]

/-- C12, witness: the delete event of the credential of "imsi-001". -/
theorem sub_data_delete_reaches_clients_witness :
    (subscriberDeleteEvent "imsi-001").MsgType = MsgType.Sub_data ∧
    (subscriberDeleteEvent "imsi-001").MsgMethod = MsgMethod.Delete_op ∧
    (configHandlerStep ⟨true, false⟩ (startState [] [⟨"amf", []⟩])
        (subscriberDeleteEvent "imsi-001")).clientNFPool
      = (startState [] [⟨"amf", []⟩]).clientNFPool.map
          (fun client =>
            ⟨client.id, client.outStandingPushConfig ++ [subscriberDeleteEvent "imsi-001"]⟩) ∧
    (configHandlerStep ⟨true, false⟩ (startState [] [⟨"amf", []⟩])
        (subscriberDeleteEvent "imsi-001")).subsUpdateChan
      = (startState [] [⟨"amf", []⟩]).subsUpdateChan ++
          (if (Configuration.mk true false).Mode5G = true then
            [⟨subscriberDeleteEvent "imsi-001", none, none⟩,
              ⟨subscriberDeleteEvent "imsi-001", none, none⟩]
          else []) :=
  ⟨rfl, rfl,
    sub_data_delete_reaches_clients ⟨true, false⟩ (startState [] [⟨"amf", []⟩])
      (subscriberDeleteEvent "imsi-001") rfl rfl⟩

/-- C12, counterexample: with the single registered client "amf", whose queue
is empty, one iteration on the delete event of the credential of "imsi-001"
leaves that event on the queue of "amf". -/
theorem sub_data_delete_enqueued_for_client :
    (subscriberDeleteEvent "imsi-001").MsgType = MsgType.Sub_data ∧
    (subscriberDeleteEvent "imsi-001").MsgMethod = MsgMethod.Delete_op ∧
    (configHandlerStep ⟨true, false⟩ (startState [] [⟨"amf", []⟩])
        (subscriberDeleteEvent "imsi-001")).clientNFPool
      = [⟨"amf", [subscriberDeleteEvent "imsi-001"]⟩] := by
  decide

/-- C15: for a delete event whose type is neither `Inventory` nor `Sub_data`,
one iteration of `configHandler` is the device-group delete block (run iff
`DevGroup` is nil) followed by the slice delete block (run iff `Slice` is nil),
the final message on `subsUpdateChan` in full-core mode and the broadcast; the
event type plays no part. The device-group snapshot named `DevGroupName` is
deleted iff `DevGroup` is nil, the slice snapshot named `SliceName` is deleted
and the slice-delete notification sent (when enabled) iff `Slice` is nil, and
in full-core mode `subsUpdateChan` receives one message per handler run plus
one: three when both payloads are nil. -/
theorem delete_handlers_chosen_by_nil_payload (cfg : Configuration) (st : HandlerState)
    (configMsg : ConfigMessage) (hm : configMsg.MsgMethod = MsgMethod.Delete_op)
    (hi : configMsg.MsgType ≠ MsgType.Inventory) (hs : configMsg.MsgType ≠ MsgType.Sub_data) :
    configHandlerStep cfg st configMsg
      = { configHandlerSliceDelete cfg (configHandlerDevGroupDelete cfg st configMsg) configMsg with
          subsUpdateChan :=
            (configHandlerSliceDelete cfg (configHandlerDevGroupDelete cfg st configMsg)
                configMsg).subsUpdateChan ++
              (if cfg.Mode5G = true then [⟨configMsg, none, none⟩] else []),
          clientNFPool := pushConfig st.clientNFPool configMsg } ∧
    (configHandlerStep cfg st configMsg).store.devGroupData
      = (if configMsg.DevGroup = none then
          RestfulAPIDeleteOne st.store.devGroupData
            (fun d => d.DeviceGroupName == configMsg.DevGroupName)
        else st.store.devGroupData) ∧
    (configHandlerStep cfg st configMsg).store.sliceData
      = (if configMsg.Slice = none then
          RestfulAPIDeleteOne st.store.sliceData (fun d => d.SliceName == configMsg.SliceName)
        else st.store.sliceData) ∧
    (configHandlerStep cfg st configMsg).notifications
      = st.notifications ++
          (if configMsg.Slice = none ∧ cfg.SendPebbleNotifications = true then [sliceDeleteKey]
          else []) ∧
    (configHandlerStep cfg st configMsg).subsUpdateChan
      = st.subsUpdateChan ++
          (if cfg.Mode5G = true then
            (if configMsg.DevGroup = none then
              [⟨configMsg, getDeviceGroupByName st.store configMsg.DevGroupName, none⟩]
            else []) ++
            (if configMsg.Slice = none then
              [⟨configMsg, none, getSliceByName st.store configMsg.SliceName⟩]
            else []) ++
            [⟨configMsg, none, none⟩]
          else []) ∧
    (configMsg.DevGroup = none → configMsg.Slice = none → cfg.Mode5G = true →
      (configHandlerStep cfg st configMsg).subsUpdateChan.length
        = st.subsUpdateChan.length + 3) := by
  have hstep : configHandlerStep cfg st configMsg
      = { configHandlerSliceDelete cfg (configHandlerDevGroupDelete cfg st configMsg) configMsg with
          subsUpdateChan :=
            (configHandlerSliceDelete cfg (configHandlerDevGroupDelete cfg st configMsg)
                configMsg).subsUpdateChan ++
              (if cfg.Mode5G = true then [⟨configMsg, none, none⟩] else []),
          clientNFPool := pushConfig st.clientNFPool configMsg } := by
    have k := configHandler_blocks_keep cfg
    unfold configHandlerStep configHandlerSubData
    simp only [hm, hi, hs, reduceCtorEq, or_self, if_false, ne_eq, not_false_eq_true, if_true]
    cases h5 : cfg.Mode5G <;>
      simp [(k _ configMsg).2.2.2.2.2.2.2.2, (k _ configMsg).2.2.2.2.2.1.2.2]
  refine ⟨hstep, ?_, ?_, ?_, ?_, ?_⟩
  · rw [hstep]
    unfold configHandlerSliceDelete configHandlerDevGroupDelete handleNetworkSliceDelete
      handleDeviceGroupDelete
    cases hd : configMsg.DevGroup <;> cases hl : configMsg.Slice <;> simp
  · rw [hstep]
    unfold configHandlerSliceDelete configHandlerDevGroupDelete handleNetworkSliceDelete
      handleDeviceGroupDelete
    cases hd : configMsg.DevGroup <;> cases hl : configMsg.Slice <;> simp
  · rw [hstep]
    unfold configHandlerSliceDelete configHandlerDevGroupDelete handleNetworkSliceDelete
      handleDeviceGroupDelete
    cases hd : configMsg.DevGroup <;> cases hl : configMsg.Slice <;>
      cases hp : cfg.SendPebbleNotifications <;> simp
  · rw [hstep]
    unfold configHandlerSliceDelete configHandlerDevGroupDelete handleNetworkSliceDelete
      handleDeviceGroupDelete getSliceByName getDeviceGroupByName
    cases hd : configMsg.DevGroup <;> cases hl : configMsg.Slice <;>
      cases h5 : cfg.Mode5G <;> simp
  · intro hd hl h5
    rw [hstep]
    unfold configHandlerSliceDelete configHandlerDevGroupDelete handleNetworkSliceDelete
      handleDeviceGroupDelete
    simp [hd, hl, h5]

/-- C15, witness: the delete event of the device group "G", with both payloads
nil, in full-core mode with notifications enabled. -/
theorem delete_handlers_chosen_by_nil_payload_witness :
    (groupDeleteEvent "G").MsgMethod = MsgMethod.Delete_op ∧
    (groupDeleteEvent "G").MsgType ≠ MsgType.Inventory ∧
    (groupDeleteEvent "G").MsgType ≠ MsgType.Sub_data ∧
    (configHandlerStep ⟨true, true⟩ (startState [] []) (groupDeleteEvent "G")).subsUpdateChan
      = [⟨groupDeleteEvent "G", some zeroDeviceGroups, none⟩,
          ⟨groupDeleteEvent "G", none, some zeroSlice⟩,
          ⟨groupDeleteEvent "G", none, none⟩] ∧
    (configHandlerStep ⟨true, true⟩ (startState [] []) (groupDeleteEvent "G")).notifications
      = [sliceDeleteKey] :=
  ⟨rfl, by decide, by decide,
    ((delete_handlers_chosen_by_nil_payload ⟨true, true⟩ (startState [] [])
      (groupDeleteEvent "G") rfl (by decide) (by decide)).2.2.2.2.1).trans (by decide),
    by decide⟩

/-- C14: in full-core mode, on an initially empty store with a credential for
the subscriber `imsi` in the cache, events applied one after another (each
event's pipeline messages consumed before the next event): creating the slice
`aName`, which references the not yet existing group `gName`, writes no derived
record; creating the group `gName` with the subscriber `imsi` then writes its
five derived records, the provisioned and SMF-selection ones under the network
code `mcc ++ mnc` of the slice; deleting the group then removes the five
records; and creating the identical group once more writes them again. The
delete event carries an empty `SliceName`, and the slice name is not empty. -/
theorem cascade_scenario (pebble : Bool) (imsi gName aName sst sd mcc mnc dnn : String)
    (qos : DeviceGroupsIpDomainExpandedUeDnnQos) (cred : AuthenticationSubscription)
    (hA : aName ≠ "") :
    (applyEvents ⟨true, pebble⟩
          [sliceCreateEvent ⟨aName, sst, sd, [gName], mcc, mnc⟩]
          (startState [(imsi, some cred)] [])).map (fun st => derivedKeys st.store)
        = some ([], [], [], [], []) ∧
    (applyEvents ⟨true, pebble⟩
          [sliceCreateEvent ⟨aName, sst, sd, [gName], mcc, mnc⟩,
            groupCreateEvent ⟨gName, [imsi], ⟨dnn, some qos⟩⟩]
          (startState [(imsi, some cred)] [])).map (fun st => derivedKeys st.store)
        = some (["imsi-" ++ imsi], ["imsi-" ++ imsi], [("imsi-" ++ imsi, some (mcc ++ mnc))],
              [("imsi-" ++ imsi, mcc ++ mnc)], [("imsi-" ++ imsi, mcc ++ mnc)]) ∧
    (applyEvents ⟨true, pebble⟩
          [sliceCreateEvent ⟨aName, sst, sd, [gName], mcc, mnc⟩,
            groupCreateEvent ⟨gName, [imsi], ⟨dnn, some qos⟩⟩,
            groupDeleteEvent gName]
          (startState [(imsi, some cred)] [])).map (fun st => derivedKeys st.store)
        = some ([], [], [], [], []) ∧
    (applyEvents ⟨true, pebble⟩
          [sliceCreateEvent ⟨aName, sst, sd, [gName], mcc, mnc⟩,
            groupCreateEvent ⟨gName, [imsi], ⟨dnn, some qos⟩⟩,
            groupDeleteEvent gName,
            groupCreateEvent ⟨gName, [imsi], ⟨dnn, some qos⟩⟩]
          (startState [(imsi, some cred)] [])).map (fun st => derivedKeys st.store)
        = some (["imsi-" ++ imsi], ["imsi-" ++ imsi], [("imsi-" ++ imsi, some (mcc ++ mnc))],
              [("imsi-" ++ imsi, mcc ++ mnc)], [("imsi-" ++ imsi, mcc ++ mnc)]) := by
  have h1 : applyEvent ⟨true, pebble⟩ (startState [(imsi, some cred)] [])
      (sliceCreateEvent ⟨aName, sst, sd, [gName], mcc, mnc⟩)
      = some (⟨⟨[], [⟨aName, sst, sd, [gName], mcc, mnc⟩], [], [], [], [], [], []⟩,
        [], [], [(imsi, some cred)], [], [], [true], true,
        (if pebble = true then [sliceCreateKey] else [])⟩ : HandlerState) := by
    simp [applyEvent, drainSubsUpdateChan, configHandlerStep, startState,
      configHandlerStart, sliceCreateEvent, groupCreateEvent, groupDeleteEvent,
      configHandlerSubData, configHandlerFirstConfig, configHandlerDevGroupPost,
      configHandlerSlicePost, configHandlerInventoryPost, configHandlerDevGroupDelete,
      configHandlerSliceDelete, pushConfig, handleNetworkSlicePost, handleNetworkSliceDelete,
      handleDeviceGroupPost, handleDeviceGroupDelete, getSliceByName, emptyStore,
      RestfulAPIGetOne, RestfulAPIPost, RestfulAPIDeleteOne, replaceFirst, firstConfigReceived,
      getDeviceGroups, getSlices, RestfulAPIGetMany, Config5GUpdateHandle, forEach,
      Config5GUpdateHandleMsg, getDeviceGroupByName, zeroDeviceGroups, zeroSlice,
      getDeleteGroupsList, getAddedImsisList, getDeletedImsisList, isDeviceGroupExistInSlice,
      firstSliceWithGroup, sliceHasGroup, provisionImsi, deprovisionImsi, updateAmPolicyData,
      updateSmPolicyData, updateAmProvisionedData, updateSmProvisionedData,
      updateSmfSelectionProviosionedData, hA]
  have h2 : applyEvent ⟨true, pebble⟩
      (⟨⟨[], [⟨aName, sst, sd, [gName], mcc, mnc⟩], [], [], [], [], [], []⟩,
        [], [], [(imsi, some cred)], [], [], [true], true,
        (if pebble = true then [sliceCreateKey] else [])⟩ : HandlerState)
      (groupCreateEvent ⟨gName, [imsi], ⟨dnn, some qos⟩⟩)
      = some (⟨⟨[⟨gName, [imsi], ⟨dnn, some qos⟩⟩], [⟨aName, sst, sd, [gName], mcc, mnc⟩], [],
        [⟨"imsi-" ++ imsi, some (mcc ++ mnc), ["msisdn-0900000000"],
          some ⟨toInt32 (ParseUint32 sst), sd⟩,
          some (convertToString (toUint64 qos.DnnMbrDownlink),
            convertToString (toUint64 qos.DnnMbrUplink))⟩],
        [⟨"imsi-" ++ imsi, mcc ++ mnc, ⟨toInt32 (ParseUint32 sst), sd⟩, dnn,
          (convertToString (toUint64 qos.DnnMbrDownlink),
            convertToString (toUint64 qos.DnnMbrUplink))⟩],
        [⟨"imsi-" ++ imsi, mcc ++ mnc, SnssaiModelsToHex ⟨toInt32 (ParseUint32 sst), sd⟩, dnn⟩],
        [⟨"imsi-" ++ imsi, ["free5gc"]⟩],
        [⟨"imsi-" ++ imsi, SnssaiModelsToHex ⟨toInt32 (ParseUint32 sst), sd⟩,
          ⟨toInt32 (ParseUint32 sst), sd⟩, dnn⟩]⟩,
        [], [], [(imsi, some cred)], [], [], [true], true,
        (if pebble = true then [sliceCreateKey] else [])⟩ : HandlerState) := by
    simp [applyEvent, drainSubsUpdateChan, configHandlerStep, startState,
      configHandlerStart, sliceCreateEvent, groupCreateEvent, groupDeleteEvent,
      configHandlerSubData, configHandlerFirstConfig, configHandlerDevGroupPost,
      configHandlerSlicePost, configHandlerInventoryPost, configHandlerDevGroupDelete,
      configHandlerSliceDelete, pushConfig, handleNetworkSlicePost, handleNetworkSliceDelete,
      handleDeviceGroupPost, handleDeviceGroupDelete, getSliceByName, emptyStore,
      RestfulAPIGetOne, RestfulAPIPost, RestfulAPIDeleteOne, replaceFirst, firstConfigReceived,
      getDeviceGroups, getSlices, RestfulAPIGetMany, Config5GUpdateHandle, forEach,
      Config5GUpdateHandleMsg, getDeviceGroupByName, zeroDeviceGroups, zeroSlice,
      getDeleteGroupsList, getAddedImsisList, getDeletedImsisList, isDeviceGroupExistInSlice,
      firstSliceWithGroup, sliceHasGroup, provisionImsi, deprovisionImsi, updateAmPolicyData,
      updateSmPolicyData, updateAmProvisionedData, updateSmProvisionedData,
      updateSmfSelectionProviosionedData, hA]
  have h3 : applyEvent ⟨true, pebble⟩
      (⟨⟨[⟨gName, [imsi], ⟨dnn, some qos⟩⟩], [⟨aName, sst, sd, [gName], mcc, mnc⟩], [],
        [⟨"imsi-" ++ imsi, some (mcc ++ mnc), ["msisdn-0900000000"],
          some ⟨toInt32 (ParseUint32 sst), sd⟩,
          some (convertToString (toUint64 qos.DnnMbrDownlink),
            convertToString (toUint64 qos.DnnMbrUplink))⟩],
        [⟨"imsi-" ++ imsi, mcc ++ mnc, ⟨toInt32 (ParseUint32 sst), sd⟩, dnn,
          (convertToString (toUint64 qos.DnnMbrDownlink),
            convertToString (toUint64 qos.DnnMbrUplink))⟩],
        [⟨"imsi-" ++ imsi, mcc ++ mnc, SnssaiModelsToHex ⟨toInt32 (ParseUint32 sst), sd⟩, dnn⟩],
        [⟨"imsi-" ++ imsi, ["free5gc"]⟩],
        [⟨"imsi-" ++ imsi, SnssaiModelsToHex ⟨toInt32 (ParseUint32 sst), sd⟩,
          ⟨toInt32 (ParseUint32 sst), sd⟩, dnn⟩]⟩,
        [], [], [(imsi, some cred)], [], [], [true], true,
        (if pebble = true then [sliceCreateKey] else [])⟩ : HandlerState)
      (groupDeleteEvent gName)
      = some (⟨⟨[], [⟨aName, sst, sd, [gName], mcc, mnc⟩], [], [], [], [], [], []⟩,
        [], [], [(imsi, some cred)], [], [], [true], true,
        ((if pebble = true then [sliceCreateKey] else []) ++
          (if pebble = true then [sliceDeleteKey] else []))⟩ : HandlerState) := by
    simp [applyEvent, drainSubsUpdateChan, configHandlerStep, startState,
      configHandlerStart, sliceCreateEvent, groupCreateEvent, groupDeleteEvent,
      configHandlerSubData, configHandlerFirstConfig, configHandlerDevGroupPost,
      configHandlerSlicePost, configHandlerInventoryPost, configHandlerDevGroupDelete,
      configHandlerSliceDelete, pushConfig, handleNetworkSlicePost, handleNetworkSliceDelete,
      handleDeviceGroupPost, handleDeviceGroupDelete, getSliceByName, emptyStore,
      RestfulAPIGetOne, RestfulAPIPost, RestfulAPIDeleteOne, replaceFirst, firstConfigReceived,
      getDeviceGroups, getSlices, RestfulAPIGetMany, Config5GUpdateHandle, forEach,
      Config5GUpdateHandleMsg, getDeviceGroupByName, zeroDeviceGroups, zeroSlice,
      getDeleteGroupsList, getAddedImsisList, getDeletedImsisList, isDeviceGroupExistInSlice,
      firstSliceWithGroup, sliceHasGroup, provisionImsi, deprovisionImsi, updateAmPolicyData,
      updateSmPolicyData, updateAmProvisionedData, updateSmProvisionedData,
      updateSmfSelectionProviosionedData, hA]
  have h4 : applyEvent ⟨true, pebble⟩
      (⟨⟨[], [⟨aName, sst, sd, [gName], mcc, mnc⟩], [], [], [], [], [], []⟩,
        [], [], [(imsi, some cred)], [], [], [true], true,
        ((if pebble = true then [sliceCreateKey] else []) ++
          (if pebble = true then [sliceDeleteKey] else []))⟩ : HandlerState)
      (groupCreateEvent ⟨gName, [imsi], ⟨dnn, some qos⟩⟩)
      = some (⟨⟨[⟨gName, [imsi], ⟨dnn, some qos⟩⟩], [⟨aName, sst, sd, [gName], mcc, mnc⟩], [],
        [⟨"imsi-" ++ imsi, some (mcc ++ mnc), ["msisdn-0900000000"],
          some ⟨toInt32 (ParseUint32 sst), sd⟩,
          some (convertToString (toUint64 qos.DnnMbrDownlink),
            convertToString (toUint64 qos.DnnMbrUplink))⟩],
        [⟨"imsi-" ++ imsi, mcc ++ mnc, ⟨toInt32 (ParseUint32 sst), sd⟩, dnn,
          (convertToString (toUint64 qos.DnnMbrDownlink),
            convertToString (toUint64 qos.DnnMbrUplink))⟩],
        [⟨"imsi-" ++ imsi, mcc ++ mnc, SnssaiModelsToHex ⟨toInt32 (ParseUint32 sst), sd⟩, dnn⟩],
        [⟨"imsi-" ++ imsi, ["free5gc"]⟩],
        [⟨"imsi-" ++ imsi, SnssaiModelsToHex ⟨toInt32 (ParseUint32 sst), sd⟩,
          ⟨toInt32 (ParseUint32 sst), sd⟩, dnn⟩]⟩,
        [], [], [(imsi, some cred)], [], [], [true], true,
        ((if pebble = true then [sliceCreateKey] else []) ++
          (if pebble = true then [sliceDeleteKey] else []))⟩ : HandlerState) := by
    simp [applyEvent, drainSubsUpdateChan, configHandlerStep, startState,
      configHandlerStart, sliceCreateEvent, groupCreateEvent, groupDeleteEvent,
      configHandlerSubData, configHandlerFirstConfig, configHandlerDevGroupPost,
      configHandlerSlicePost, configHandlerInventoryPost, configHandlerDevGroupDelete,
      configHandlerSliceDelete, pushConfig, handleNetworkSlicePost, handleNetworkSliceDelete,
      handleDeviceGroupPost, handleDeviceGroupDelete, getSliceByName, emptyStore,
      RestfulAPIGetOne, RestfulAPIPost, RestfulAPIDeleteOne, replaceFirst, firstConfigReceived,
      getDeviceGroups, getSlices, RestfulAPIGetMany, Config5GUpdateHandle, forEach,
      Config5GUpdateHandleMsg, getDeviceGroupByName, zeroDeviceGroups, zeroSlice,
      getDeleteGroupsList, getAddedImsisList, getDeletedImsisList, isDeviceGroupExistInSlice,
      firstSliceWithGroup, sliceHasGroup, provisionImsi, deprovisionImsi, updateAmPolicyData,
      updateSmPolicyData, updateAmProvisionedData, updateSmProvisionedData,
      updateSmfSelectionProviosionedData, hA]
  simp only [applyEvents, h1, h2, h3, h4, derivedKeys, Option.map_some', List.map_cons,
    List.map_nil, and_self]

/-- C14, witness: the slice "A" with network code 208/93 referencing the group
"G", the group "G" with the subscriber "001", notifications disabled. -/
theorem cascade_scenario_witness :
    ("A" : String) ≠ "" ∧
    (applyEvents ⟨true, false⟩
        [sliceCreateEvent sliceA, groupCreateEvent groupG, groupDeleteEvent "G",
          groupCreateEvent groupG]
        (startState [("001", some ⟨"k"⟩)] [])).map (fun st => derivedKeys st.store)
      = some (["imsi-001"], ["imsi-001"], [("imsi-001", some "20893")],
          [("imsi-001", "20893")], [("imsi-001", "20893")]) :=
  ⟨by decide,
    (cascade_scenario false "001" "G" "A" "1" "010203" "208" "93" "internet"
      ⟨1500000000, 2000000⟩ ⟨"k"⟩ (by decide)).2.2.2⟩

end Webconsole
